import Mathlib

/-!
Verification of the transport-planner scheduling core
(`supabase/migrations/20250711105343_golden_brook.sql`).

Shallow embedding conventions:
* Dates are day numbers (`Nat`).  Day 0 is a Thursday, matching the Unix
  epoch 1970-01-01, so PostgreSQL's `EXTRACT(DOW ...)` (0 = Sunday ...
  6 = Saturday) is `(d + 4) % 7`.
* `TIME` values are minutes (`Nat`), timestamps are minutes (`Nat`).
* UUID keys are abstracted to `Nat`; `TEXT` status/enum columns are kept
  as `String` exactly as stored.
* Nullable columns are `Option`; SQL three-valued comparisons on NULL are
  modelled by the corresponding `Option` pattern matches.
* Tables are `List`s of row structures; a SQL function that mutates a
  table is a Lean function from the old table value to the new one.
-/

namespace TransportPlanner

/-- A row of `routes` (only the columns the scheduling core reads). -/
structure Route where
  id : Nat
  route_code : String
deriving DecidableEq

/-- A row of `route_schedules` (master templates).  `days_of_week` is the
stored recurrence rule, documented in the schema as `1=Monday, 7=Sunday`;
`NULL` is modelled as `none`. -/
structure RouteSchedule where
  id : Nat
  route_id : Nat
  days_of_week : Option (List Nat)
  start_date : Nat
  end_date : Option Nat
  standby_time : Option Nat
  departure_time : Option Nat
  default_driver_id : Option Nat
  default_vehicle_id : Option Nat
  owner_user_id : Option Nat
  status : String
deriving DecidableEq

/-- A row of `schedule_instances` (daily overrides). -/
structure ScheduleInstance where
  id : Nat
  route_schedule_id : Nat
  schedule_date : Nat
  driver_id : Option Nat
  vehicle_id : Option Nat
  standby_date : Option Nat
  standby_time : Option Nat
  departure_date : Option Nat
  departure_time : Option Nat
  status : String
  is_deleted : Bool
deriving DecidableEq

/-- A row of the materialized view `schedule_overview`.  Driver/vehicle
columns are kept at id level: the view's
`COALESCE(d_override.driver_code, d_default.driver_code)` over the two
`drivers` joins (keyed by `si.driver_id` resp. `rs.default_driver_id`,
both foreign keys) is the code of `COALESCE(si.driver_id, rs.default_driver_id)`. -/
structure OverviewRow where
  schedule_id : Nat
  schedule_date : Nat
  standby_time : Option Nat
  departure_time : Option Nat
  standby_date : Nat
  departure_date : Nat
  driver_id : Option Nat
  vehicle_id : Option Nat
  status : String
  has_override : Bool
  is_deleted : Option Bool
  owner_user_id : Option Nat
deriving DecidableEq

/-- `start_date + INTERVAL '1 year'`; intercalation is abstracted to a
fixed 365-day year (no claim depends on the length of the year). -/
def plusOneYear (d : Nat) : Nat := d + 365

/-- Upper bound of `generate_series`: `COALESCE(rs.end_date, rs.start_date + INTERVAL '1 year')`. -/
def endBound (rs : RouteSchedule) : Nat :=
  match rs.end_date with
  | some e => e
  | none => plusOneYear rs.start_date

/-- `generate_series(a, b, '1 day')`: the dates `a, a+1, ..., b` (empty when `b < a`). -/
def dateRange (a b : Nat) : List Nat := (List.range (b + 1 - a)).map (fun i => a + i)

/-- PostgreSQL `EXTRACT(DOW FROM d)`: 0 = Sunday ... 6 = Saturday
(day 0 of the embedding is a Thursday). -/
def pgDow (d : Nat) : Nat := (d + 4) % 7

/-- The weekday numbering documented on `route_schedules.days_of_week`
(`1=Monday, 7=Sunday`), i.e. ISO 8601 day-of-week. -/
def isoWeekday (d : Nat) : Nat :=
  let w := (d + 4) % 7
  if w == 0 then 7 else w

/-- The `CASE WHEN rs.days_of_week IS NULL THEN ARRAY[1,2,3,4,5,6,7] ELSE rs.days_of_week END`
expression of the view. -/
def effectiveDays (rs : RouteSchedule) : List Nat :=
  match rs.days_of_week with
  | some l => l
  | none => [1, 2, 3, 4, 5, 6, 7]

/-- The view's weekday condition:
`EXTRACT(DOW FROM schedule_date) = ANY(...days_of_week...)`. -/
def dowFilter (rs : RouteSchedule) (d : Nat) : Bool := (effectiveDays rs).contains (pgDow d)

/-- The view's `LEFT JOIN schedule_instances si ON si.route_schedule_id = rs.id
AND si.schedule_date = schedule_date AND si.is_deleted = FALSE`; at most one row
matches thanks to `UNIQUE(route_schedule_id, schedule_date)`. -/
def findInstance (instances : List ScheduleInstance) (rsId d : Nat) : Option ScheduleInstance :=
  instances.find? (fun si =>
    si.route_schedule_id == rsId && si.schedule_date == d && si.is_deleted == false)

/-- One `schedule_overview` row: the `COALESCE(si.x, rs.x)` merge of the
SELECT list, with `si` the (optional) joined override row. -/
def mkRow (rs : RouteSchedule) (si : Option ScheduleInstance) (d : Nat) : OverviewRow :=
  { schedule_id := rs.id
    schedule_date := d
    standby_time := (si.bind (fun s => s.standby_time)).or rs.standby_time
    departure_time := (si.bind (fun s => s.departure_time)).or rs.departure_time
    standby_date := (si.bind (fun s => s.standby_date)).getD d
    departure_date := (si.bind (fun s => s.departure_date)).getD d
    driver_id := (si.bind (fun s => s.driver_id)).or rs.default_driver_id
    vehicle_id := (si.bind (fun s => s.vehicle_id)).or rs.default_vehicle_id
    status := (si.map (fun s => s.status)).getD rs.status
    has_override := si.isSome
    is_deleted := si.map (fun s => s.is_deleted)
    owner_user_id := rs.owner_user_id }

/-- The materialized view `schedule_overview`: for each template with status
`Confirmed`/`Changed`, one row per day of
`generate_series(start_date, COALESCE(end_date, start_date + 1 year))` whose
`EXTRACT(DOW)` is in `days_of_week`, merged with the non-deleted override row
for that day (if any).  The trailing
`AND (si.is_deleted = FALSE OR si.is_deleted IS NULL)` filter of the view is
kept literally (it is vacuous after the join condition). -/
def scheduleOverview (templates : List RouteSchedule) (instances : List ScheduleInstance) :
    List OverviewRow :=
  templates.flatMap (fun rs =>
    if rs.status == "Confirmed" || rs.status == "Changed" then
      ((dateRange rs.start_date (endBound rs)).filter (dowFilter rs)).filterMap (fun d =>
        let si := findInstance instances rs.id d
        if (match si with | some s => !s.is_deleted | none => true) then
          some (mkRow rs si d)
        else none)
    else [])

/-- A row of `conflict_checks`. -/
structure ConflictCheck where
  check_date : Nat
  driver_id : Option Nat
  vehicle_id : Option Nat
  conflicting_schedules : List Nat
  conflict_type : String
  severity : String
  status : String
deriving DecidableEq

/-- The `WHERE` clause shared by both grouping queries of
`detect_schedule_conflicts`: same date as `CURRENT_DATE`, non-null resource,
status `IN ('Scheduled', 'Confirmed')`, not deleted.  `getRes` selects the
grouped resource column (`driver_id` or `vehicle_id`). -/
def qualifying (getRes : ScheduleInstance → Option Nat) (today : Nat)
    (si : ScheduleInstance) : Bool :=
  si.schedule_date == today && (getRes si).isSome
    && (si.status == "Scheduled" || si.status == "Confirmed") && si.is_deleted == false

/-- The rows of one `GROUP BY` group: qualifying instances whose resource
equals `res`. -/
def groupMembers (getRes : ScheduleInstance → Option Nat) (today : Nat)
    (instances : List ScheduleInstance) (res : Nat) : List ScheduleInstance :=
  (instances.filter (qualifying getRes today)).filter (fun si => getRes si == some res)

/-- First-occurrence deduplication, used to enumerate the distinct `GROUP BY`
keys of an `INSERT ... SELECT ... GROUP BY` statement. -/
def dedupAux (seen : List Nat) : List Nat → List Nat
  | [] => []
  | x :: xs => if seen.contains x then dedupAux seen xs else x :: dedupAux (x :: seen) xs

/-- One `INSERT INTO conflict_checks ... GROUP BY <resource> HAVING COUNT(*) > 1`
statement of `detect_schedule_conflicts`: one record per distinct resource value
whose group has more than one row, built by `mk` from the resource value and the
group rows (`array_agg(id)`, `CASE WHEN COUNT(*) > 2 ...`). -/
def groupRecords (getRes : ScheduleInstance → Option Nat)
    (mk : Nat → List ScheduleInstance → ConflictCheck) (today : Nat)
    (instances : List ScheduleInstance) : List ConflictCheck :=
  (dedupAux [] ((instances.filter (qualifying getRes today)).filterMap getRes)).filterMap
    (fun res =>
      if 1 < (groupMembers getRes today instances res).length then
        some (mk res (groupMembers getRes today instances res))
      else none)

/-- The record built for a driver group: `'Driver Overlap'`,
severity `CASE WHEN COUNT(*) > 2 THEN 'High' ELSE 'Medium' END`,
`conflicting_schedules = array_agg(id)`, status defaulting to `'Open'`. -/
def mkDriverConflict (today res : Nat) (members : List ScheduleInstance) : ConflictCheck :=
  { check_date := today
    driver_id := some res
    vehicle_id := none
    conflicting_schedules := members.map (fun si => si.id)
    conflict_type := "Driver Overlap"
    severity := if 2 < members.length then "High" else "Medium"
    status := "Open" }

/-- The record built for a vehicle group (`'Vehicle Overlap'`). -/
def mkVehicleConflict (today res : Nat) (members : List ScheduleInstance) : ConflictCheck :=
  { check_date := today
    driver_id := none
    vehicle_id := some res
    conflicting_schedules := members.map (fun si => si.id)
    conflict_type := "Vehicle Overlap"
    severity := if 2 < members.length then "High" else "Medium"
    status := "Open" }

/-- The driver-grouping `INSERT` of `detect_schedule_conflicts`. -/
def detectDriverConflicts (today : Nat) (instances : List ScheduleInstance) :
    List ConflictCheck :=
  groupRecords (fun si => si.driver_id) (mkDriverConflict today) today instances

/-- The vehicle-grouping `INSERT` of `detect_schedule_conflicts`. -/
def detectVehicleConflicts (today : Nat) (instances : List ScheduleInstance) :
    List ConflictCheck :=
  groupRecords (fun si => si.vehicle_id) (mkVehicleConflict today) today instances

/-- `detect_schedule_conflicts()`: first
`DELETE FROM conflict_checks WHERE check_date = CURRENT_DATE`, then the driver
and vehicle grouping inserts.  `today` stands for `CURRENT_DATE` (the SQL
function takes no date parameter) and `conflicts` is the `conflict_checks`
table before the run; the result is the table after the run. -/
def detectScheduleConflicts (today : Nat) (instances : List ScheduleInstance)
    (conflicts : List ConflictCheck) : List ConflictCheck :=
  conflicts.filter (fun c => c.check_date != today)
    ++ detectDriverConflicts today instances ++ detectVehicleConflicts today instances

/-- A row of `route_alerts` (columns the claims touch; `is_read`/`read_at`
are omitted).  `created_date` is `DATE(created_at)`. -/
structure RouteAlert where
  schedule_instance_id : Option Nat
  route_schedule_id : Option Nat
  alert_type : String
  title : String
  message : Option String
  severity : String
  created_for_user : Option Nat
  created_date : Nat
deriving DecidableEq

/-- The alert (if any) that `detect_cross_day_conflict` inserts for one
`schedule_instances` row: the `INNER JOIN`s to `route_schedules` and `routes`
and the `WHERE si.schedule_date = CURRENT_DATE AND si.standby_date !=
si.departure_date AND si.is_deleted = FALSE` filter.  A SQL `!=` with a NULL
operand is not true, so rows with a NULL standby or departure date are skipped. -/
def crossDayAlert (today : Nat) (schedules : List RouteSchedule) (routes : List Route)
    (si : ScheduleInstance) : Option RouteAlert :=
  si.standby_date.bind (fun s =>
    si.departure_date.bind (fun dd =>
      if si.schedule_date == today && s != dd && si.is_deleted == false then
        (schedules.find? (fun rs => rs.id == si.route_schedule_id)).bind (fun rs =>
          (routes.find? (fun r => r.id == rs.route_id)).map (fun r =>
            { schedule_instance_id := some si.id
              route_schedule_id := none
              alert_type := "TimeCrossDay"
              title := "Cross-Day Schedule Detected"
              message := some ("Route " ++ r.route_code ++ " has standby time on "
                ++ toString s ++ " but departure on " ++ toString dd)
              severity := "Medium"
              created_for_user := rs.owner_user_id
              created_date := today }))
      else none))

/-- `detect_cross_day_conflict()`: deletes today's `TimeCrossDay` alerts, then
inserts one alert per qualifying cross-day instance.  `today` stands for
`CURRENT_DATE`.  The function touches only `route_alerts`; the
`conflict_checks` table is passed through unchanged, which the result records
explicitly. -/
def detectCrossDayConflict (today : Nat) (schedules : List RouteSchedule)
    (routes : List Route) (instances : List ScheduleInstance)
    (alerts : List RouteAlert) (conflicts : List ConflictCheck) :
    List RouteAlert × List ConflictCheck :=
  (alerts.filter (fun a => !(a.alert_type == "TimeCrossDay" && a.created_date == today))
      ++ instances.filterMap (crossDayAlert today schedules routes),
    conflicts)

/-- A row of `support_offer` (columns the claims touch). -/
structure SupportOffer where
  id : Nat
  route_schedule_id : Option Nat
  from_user_id : Nat
  to_user_id : Option Nat
  proposed_driver_id : Option Nat
  proposed_vehicle_id : Option Nat
  offer_type : String
  message : Option String
  status : String
  expires_at : Nat
  responded_at : Option Nat
deriving DecidableEq

/-- `create_support_offer(...)`: inserts a `support_offer` row with status
defaulting to `'Pending'` and `expires_at = now() + INTERVAL '24 hours'`
(timestamps in minutes, so 24 * 60), inserts an `'Offer'` alert for the
target user, and returns the new offer id.  `now` stands for `now()` and
`newId` for the generated UUID. -/
def createSupportOffer (now newId : Nat) (offers : List SupportOffer)
    (alerts : List RouteAlert) (p_route_schedule_id : Option Nat) (p_from_user_id : Nat)
    (p_to_user_id p_proposed_driver_id p_proposed_vehicle_id : Option Nat)
    (p_message : Option String) (p_offer_type : String) :
    List SupportOffer × List RouteAlert × Nat :=
  let offer : SupportOffer :=
    { id := newId
      route_schedule_id := p_route_schedule_id
      from_user_id := p_from_user_id
      to_user_id := p_to_user_id
      proposed_driver_id := p_proposed_driver_id
      proposed_vehicle_id := p_proposed_vehicle_id
      offer_type := p_offer_type
      message := p_message
      status := "Pending"
      expires_at := now + 24 * 60
      responded_at := none }
  let alert : RouteAlert :=
    { schedule_instance_id := none
      route_schedule_id := p_route_schedule_id
      alert_type := "Offer"
      title := "New Support Offer"
      message := p_message
      severity := "Medium"
      created_for_user := p_to_user_id
      created_date := now }
  (offers ++ [offer], alerts ++ [alert], newId)

/-- Modelled from the spec: no sweep exists under `src` (the repository only
declares the `'Expired'` status value); per the spec, a scheduled sweep marks
`Pending` offers whose `expires_at` has passed without a response as
`'Expired'` (a status transition, never a delete). -/
def expireSweep (now : Nat) (offers : List SupportOffer) : List SupportOffer :=
  offers.map (fun o =>
    if o.status = "Pending" ∧ o.expires_at ≤ now ∧ o.responded_at = none then
      { o with status := "Expired" }
    else o)

/-- A row of `route_responsibility` (columns the claims touch);
`UNIQUE(route_id, user_id, role)` is enforced by the table. -/
structure RouteResponsibility where
  id : Nat
  route_id : Nat
  user_id : Nat
  role : String
  assigned_at : Nat
  assigned_by : Option Nat
  is_active : Bool
deriving DecidableEq

/-- The `ON CONFLICT (route_id, user_id, role)` key match. -/
def keyMatch (r u : Nat) (l : String) (x : RouteResponsibility) : Bool :=
  x.route_id == r && x.user_id == u && x.role == l

/-- `assign_route_responsibility(...)`: an
`INSERT ... ON CONFLICT (route_id, user_id, role) DO UPDATE SET is_active =
true, assigned_at = now(), assigned_by = p_assigned_by RETURNING id`.
`now` stands for `now()` and `newId` for the generated UUID; the result is
the new table together with the returned id. -/
def assignRouteResponsibility (now newId : Nat) (tbl : List RouteResponsibility)
    (p_route_id p_user_id : Nat) (p_role : String) (p_assigned_by : Option Nat) :
    List RouteResponsibility × Nat :=
  match tbl.find? (keyMatch p_route_id p_user_id p_role) with
  | some rr =>
    (tbl.map (fun x =>
        if keyMatch p_route_id p_user_id p_role x then
          { x with is_active := true, assigned_at := now, assigned_by := p_assigned_by }
        else x),
      rr.id)
  | none =>
    (tbl ++ [{ id := newId, route_id := p_route_id, user_id := p_user_id, role := p_role,
               assigned_at := now, assigned_by := p_assigned_by, is_active := true }],
      newId)

/-- A row of `audit_logs` (columns the claims touch). -/
structure AuditLog where
  table_name : String
  record_id : Nat
  operation : String
  user_id : Option Nat
deriving DecidableEq

/-- Outcome of `current_setting('app.current_user_id', true)::UUID` inside
`audit_trigger_function`: the read/cast either yields a value or raises. -/
inductive ActorRead where
  | ok : Option Nat → ActorRead
  | failed : ActorRead
deriving DecidableEq

/-- The actor resolution of `audit_trigger_function`: the `BEGIN ...
EXCEPTION WHEN OTHERS THEN v_user_id := NULL` block catches a failing
setting read and records a NULL actor. -/
def resolveActor : ActorRead → Option Nat
  | .ok v => v
  | .failed => none

/-- A primary mutation of a tracked table (row contents abstracted to ids). -/
inductive Mutation where
  | ins : Nat → Mutation
  | upd : Nat → Mutation
  | del : Nat → Mutation
deriving DecidableEq

/-- The effect of the primary `INSERT`/`UPDATE`/`DELETE` statement alone. -/
def applyMutation (rows : List Nat) : Mutation → List Nat
  | .ins r => rows ++ [r]
  | .upd _ => rows
  | .del r => rows.filter (fun x => x != r)

/-- The audit row `audit_trigger_function` writes for a mutation. -/
def auditRecord (tbl : String) (actor : ActorRead) : Mutation → AuditLog
  | .ins r => { table_name := tbl, record_id := r, operation := "INSERT",
                user_id := resolveActor actor }
  | .upd r => { table_name := tbl, record_id := r, operation := "UPDATE",
                user_id := resolveActor actor }
  | .del r => { table_name := tbl, record_id := r, operation := "DELETE",
                user_id := resolveActor actor }

/-- A tracked entity table together with `audit_logs`. -/
structure TrackedTable where
  rows : List Nat
  audit_logs : List AuditLog
deriving DecidableEq

/-- One mutation of a tracked table under its `AFTER ... FOR EACH ROW` audit
trigger.  The trigger's `INSERT INTO audit_logs` runs in the same transaction
as the primary statement and `audit_trigger_function` has no exception handler
around it (only around the actor lookup), so in PostgreSQL an error raised by
the audit insert aborts the whole transaction: the primary mutation rolls back
with it.  `auditInsertOk` models whether the audit insert succeeds (e.g.
whether `audit_logs` row-level security admits it — the base migration
declares no INSERT policy on `audit_logs`; only the discarded migration adds
one). -/
def mutateWithAudit (tbl : String) (actor : ActorRead) (auditInsertOk : Bool)
    (s : TrackedTable) (m : Mutation) : TrackedTable :=
  if auditInsertOk then
    { rows := applyMutation s.rows m
      audit_logs := s.audit_logs ++ [auditRecord tbl actor m] }
  else s

/-- The `suggestion_config` tuning surface (the seeded `config_key` rows the
claims use; values exact rationals). -/
structure SuggestionConfig where
  min_gap_minutes : ℚ
  max_gap_minutes : ℚ
  max_distance_km : ℚ
  distance_weight : ℚ
  time_weight : ℚ
  traffic_factor : ℚ
  efficiency_threshold : ℚ
  max_suggestions_per_route : Nat
deriving DecidableEq

/-- The default configuration seeded by the `INSERT INTO suggestion_config`
statement: 30, 240, 50, 0.4, 0.6, 1.2, 0.7, 5. -/
def defaultSuggestionConfig : SuggestionConfig :=
  { min_gap_minutes := 30
    max_gap_minutes := 240
    max_distance_km := 50
    distance_weight := 2/5
    time_weight := 3/5
    traffic_factor := 6/5
    efficiency_threshold := 7/10
    max_suggestions_per_route := 5 }

/-- Modelled from the spec: a materialized occurrence as seen by the
suggestion engine — its route and its estimated arrival (end) and departure
(start) clock times in minutes. -/
structure RouteOcc where
  route_code : String
  arrival_minutes : ℚ
  departure_minutes : ℚ
deriving DecidableEq

/-- A row of `smart_suggestions` (columns the claims touch). -/
structure SuggestionRec where
  from_route : String
  to_route : String
  gap_minutes : ℚ
  distance_km : ℚ
  efficiency_score : ℚ
deriving DecidableEq

/-- Modelled from the spec: the efficiency formula
`distanceWeight * (1 - distance/maxDistance) + timeWeight * (1 - gap/maxGap)`
(no function under `src` computes suggestions; only the `smart_suggestions`
table and the seeded `suggestion_config` constants exist). -/
def efficiencyScore (cfg : SuggestionConfig) (distance gap : ℚ) : ℚ :=
  cfg.distance_weight * (1 - distance / cfg.max_distance_km)
    + cfg.time_weight * (1 - gap / cfg.max_gap_minutes)

/-- Modelled from the spec: `suggestConsolidations(date)` over the
occurrences of one date — for every ordered pair of distinct routes,
`gap = toRoute.departure - fromRoute.estimatedArrival`; the pair is kept when
the gap lies in `[minGapMinutes, maxGapMinutes]`, the looked-up inter-route
distance is at most `maxDistanceKm`, and the efficiency reaches
`efficiencyThreshold`.  The per-route suggestion cap and the persistence
upsert of the spec are outside the claims and are not modelled. -/
def suggestConsolidations (cfg : SuggestionConfig) (occs : List RouteOcc)
    (dist : String → String → ℚ) : List SuggestionRec :=
  occs.flatMap (fun a =>
    occs.filterMap (fun b =>
      if a.route_code == b.route_code then none
      else
        let gap := b.departure_minutes - a.arrival_minutes
        let dk := dist a.route_code b.route_code
        if cfg.min_gap_minutes ≤ gap ∧ gap ≤ cfg.max_gap_minutes ∧ dk ≤ cfg.max_distance_km then
          if cfg.efficiency_threshold ≤ efficiencyScore cfg dk gap then
            some { from_route := a.route_code, to_route := b.route_code,
                   gap_minutes := gap, distance_km := dk,
                   efficiency_score := efficiencyScore cfg dk gap }
          else none
        else none))

/-! ### Helper lemmas about deduplicated group keys -/

lemma count_dedupAux (x : Nat) :
    ∀ (l seen : List Nat),
      (dedupAux seen l).count x = if x ∈ seen then 0 else if x ∈ l then 1 else 0 := by
  intro l
  induction l with
  | nil =>
    intro seen
    by_cases h : x ∈ seen <;> simp [dedupAux, h]
  | cons a t ih =>
    intro seen
    rw [dedupAux]
    by_cases hc : a ∈ seen
    · rw [if_pos (by simpa using List.elem_iff.mpr hc)]
      rw [ih seen]
      by_cases hx : x ∈ seen
      · simp [hx]
      · have hax : x ≠ a := fun h => hx (h ▸ hc)
        simp [hx, List.mem_cons, hax, Ne.symm hax]
    · rw [if_neg (by simpa using fun h => hc (List.elem_iff.mp h))]
      rw [List.count_cons, ih (a :: seen)]
      by_cases hxa : x = a
      · subst hxa
        simp [List.mem_cons, hc]
      · have h1 : (x ∈ a :: seen) ↔ (x ∈ seen) := by
          simp [List.mem_cons, hxa]
        have h2 : (a == x) = false := by
          simp only [beq_eq_false_iff_ne]
          exact Ne.symm hxa
        by_cases hs : x ∈ seen
        · simp [h1, h2, hs]
        · simp [h1, h2, hs, List.mem_cons, hxa]

lemma mem_dedupAux (x : Nat) (l seen : List Nat) :
    x ∈ dedupAux seen l ↔ x ∈ l ∧ x ∉ seen := by
  have h := count_dedupAux x l seen
  constructor
  · intro hm
    by_cases hs : x ∈ seen
    · rw [if_pos hs] at h
      exact absurd hm (List.count_eq_zero.mp h)
    · by_cases hl : x ∈ l
      · exact ⟨hl, hs⟩
      · rw [if_neg hs, if_neg hl] at h
        exact absurd hm (List.count_eq_zero.mp h)
  · rintro ⟨hl, hs⟩
    rw [if_neg hs, if_pos hl] at h
    have : (dedupAux seen l).count x ≠ 0 := by omega
    exact List.count_pos_iff.mp (Nat.pos_of_ne_zero this)

/-- Filtering the records of a keyed `filterMap` down to one key: when the key
occurs at most once in the key list, at most the record built from that key
survives. -/
lemma filter_filterMap_key (f : Nat → Option ConflictCheck) (P : ConflictCheck → Option Nat)
    (hf : ∀ a c, f a = some c → P c = some a) (d : Nat) :
    ∀ L : List Nat, L.count d ≤ 1 →
      (L.filterMap f).filter (fun c => P c == some d)
        = if d ∈ L then (match f d with | some c => [c] | none => []) else [] := by
  intro L
  induction L with
  | nil => intro _; simp
  | cons a t ih =>
    intro hcount
    by_cases had : a = d
    · subst had
      have hct : t.count a = 0 := by
        rw [List.count_cons] at hcount
        simp at hcount
        omega
      have hnt : a ∉ t := List.count_eq_zero.mp hct
      have htail := ih (by omega)
      rw [if_neg hnt] at htail
      cases hfa : f a with
      | none =>
        rw [List.filterMap_cons, hfa]
        rw [if_pos (List.mem_cons_self a t)]
        exact htail
      | some c =>
        have hPc : P c = some a := hf a c hfa
        have hPt : (P c == some a) = true := by simp [hPc]
        rw [List.filterMap_cons, hfa]
        rw [if_pos (List.mem_cons_self a t)]
        show List.filter (fun x => P x == some a) (c :: List.filterMap f t) = [c]
        rw [List.filter_cons, hPt, if_pos rfl, htail]
    · have hct : t.count d ≤ 1 := by
        rw [List.count_cons] at hcount
        simpa [had] using hcount
      have hmem : (d ∈ a :: t) ↔ (d ∈ t) := by
        simp [List.mem_cons, Ne.symm had]
      cases hfa : f a with
      | none =>
        rw [List.filterMap_cons, hfa, ih hct]
        by_cases hdt : d ∈ t
        · rw [if_pos hdt, if_pos (hmem.mpr hdt)]
        · rw [if_neg hdt, if_neg (fun h => hdt (hmem.mp h))]
      | some c =>
        have hPc : P c = some a := hf a c hfa
        have hne : (P c == some d) = false := by
          rw [hPc]
          simp [had]
        rw [List.filterMap_cons, hfa, List.filter_cons, hne]
        simp only [Bool.false_eq_true, if_false]
        rw [ih hct]
        by_cases hdt : d ∈ t
        · rw [if_pos hdt, if_pos (hmem.mpr hdt)]
        · rw [if_neg hdt, if_neg (fun h => hdt (hmem.mp h))]

/-- The group records of one `GROUP BY` insert, restricted to one resource
value: exactly the record of that group when the group has more than one row,
nothing otherwise. -/
lemma group_filter_eq (getRes : ScheduleInstance → Option Nat)
    (mk : Nat → List ScheduleInstance → ConflictCheck) (P : ConflictCheck → Option Nat)
    (hmk : ∀ res members, P (mk res members) = some res)
    (today : Nat) (instances : List ScheduleInstance) (d : Nat) :
    (groupRecords getRes mk today instances).filter (fun c => P c == some d)
      = if 1 < (groupMembers getRes today instances d).length
        then [mk d (groupMembers getRes today instances d)] else [] := by
  unfold groupRecords
  have hf : ∀ a c,
      (if 1 < (groupMembers getRes today instances a).length then
        some (mk a (groupMembers getRes today instances a)) else none) = some c →
      P c = some a := by
    intro a c h
    split at h
    · cases h
      exact hmk _ _
    · cases h
  set ids := (instances.filter (qualifying getRes today)).filterMap getRes with hids
  have hcnt : (dedupAux [] ids).count d ≤ 1 := by
    rw [count_dedupAux]
    by_cases h1 : d ∈ ids <;> simp [h1]
  rw [filter_filterMap_key _ P hf d _ hcnt]
  by_cases hmem : d ∈ dedupAux [] ids
  · rw [if_pos hmem]
    by_cases hlen : 1 < (groupMembers getRes today instances d).length
    · simp [hlen]
    · simp [hlen]
  · rw [if_neg hmem]
    have hnid : d ∉ ids := fun h => hmem ((mem_dedupAux d ids []).mpr ⟨h, by simp⟩)
    by_cases hlen : 1 < (groupMembers getRes today instances d).length
    · exfalso
      have hne : groupMembers getRes today instances d ≠ [] := by
        intro h
        rw [h] at hlen
        simp at hlen
      obtain ⟨si, hsi⟩ := List.exists_mem_of_ne_nil _ hne
      have h1 := List.of_mem_filter hsi
      have h2 := List.mem_of_mem_filter hsi
      exact hnid (List.mem_filterMap.mpr ⟨si, h2, by simpa using h1⟩)
    · simp [hlen]

/-! ### C2: conflict grouping, membership, severity -/

def c2Inst1 : ScheduleInstance :=
  { id := 1, route_schedule_id := 1, schedule_date := 0, driver_id := some 10,
    vehicle_id := none, standby_date := none, standby_time := none,
    departure_date := none, departure_time := none, status := "Confirmed",
    is_deleted := false }

def c2Inst2 : ScheduleInstance :=
  { c2Inst1 with id := 2, route_schedule_id := 2 }

def c2Inst3 : ScheduleInstance :=
  { c2Inst1 with id := 3, route_schedule_id := 3 }

/-- C2: in `detect_schedule_conflicts`, only occurrences with a non-null
driver (resp. vehicle), status Scheduled/Confirmed and deletion flag false are
grouped; each group of size > 1 yields exactly one conflict record carrying
all members of the group, severity High when the group has more than 2 rows,
else Medium; and concretely, three Confirmed occurrences sharing one driver
yield exactly one High Driver-Overlap record referencing all three. -/
theorem c2_conflict_grouping :
    (∀ (today : Nat) (instances : List ScheduleInstance) (d : Nat),
      ((detectDriverConflicts today instances).filter (fun c => c.driver_id == some d)
        = if 1 < (groupMembers (fun si => si.driver_id) today instances d).length
          then [mkDriverConflict today d
                  (groupMembers (fun si => si.driver_id) today instances d)]
          else [])
      ∧ ((detectVehicleConflicts today instances).filter (fun c => c.vehicle_id == some d)
        = if 1 < (groupMembers (fun si => si.vehicle_id) today instances d).length
          then [mkVehicleConflict today d
                  (groupMembers (fun si => si.vehicle_id) today instances d)]
          else []))
    ∧ detectScheduleConflicts 0 [c2Inst1, c2Inst2, c2Inst3] []
        = [{ check_date := 0, driver_id := some 10, vehicle_id := none,
             conflicting_schedules := [1, 2, 3], conflict_type := "Driver Overlap",
             severity := "High", status := "Open" }] := by
  constructor
  · intro today instances d
    exact ⟨group_filter_eq _ _ (fun c => c.driver_id) (fun _ _ => rfl) today instances d,
           group_filter_eq _ _ (fun c => c.vehicle_id) (fun _ _ => rfl) today instances d⟩
  · decide

/-! ### C3: idempotent, non-accumulating detection -/

lemma groupRecords_check_date (getRes : ScheduleInstance → Option Nat)
    (mk : Nat → List ScheduleInstance → ConflictCheck) (today : Nat)
    (instances : List ScheduleInstance)
    (hmk : ∀ res members, (mk res members).check_date = today) :
    ∀ c ∈ groupRecords getRes mk today instances, c.check_date = today := by
  intro c hc
  unfold groupRecords at hc
  obtain ⟨res, _, hfc⟩ := List.mem_filterMap.mp hc
  split at hfc
  · cases hfc
    exact hmk _ _
  · cases hfc

/-- C3: `detect_schedule_conflicts` is idempotent and non-accumulating —
running it again on an unchanged `schedule_instances` table reproduces the
same `conflict_checks` table, and the records carried for the run date are
exactly the freshly computed driver and vehicle groups, independent of the
prior table contents. -/
theorem c3_idempotent :
    ∀ (today : Nat) (instances : List ScheduleInstance) (prior : List ConflictCheck),
      detectScheduleConflicts today instances (detectScheduleConflicts today instances prior)
        = detectScheduleConflicts today instances prior
      ∧ (detectScheduleConflicts today instances prior).filter
            (fun c => c.check_date == today)
          = detectDriverConflicts today instances ++ detectVehicleConflicts today instances := by
  intro today instances prior
  have hD : ∀ c ∈ detectDriverConflicts today instances, c.check_date = today :=
    groupRecords_check_date _ _ today instances (fun _ _ => rfl)
  have hV : ∀ c ∈ detectVehicleConflicts today instances, c.check_date = today :=
    groupRecords_check_date _ _ today instances (fun _ _ => rfl)
  have hDne : (detectDriverConflicts today instances).filter
      (fun c => c.check_date != today) = [] := by
    refine List.filter_eq_nil_iff.mpr (fun c hc => ?_)
    simp [hD c hc]
  have hVne : (detectVehicleConflicts today instances).filter
      (fun c => c.check_date != today) = [] := by
    refine List.filter_eq_nil_iff.mpr (fun c hc => ?_)
    simp [hV c hc]
  have hDeq : (detectDriverConflicts today instances).filter
      (fun c => c.check_date == today) = detectDriverConflicts today instances := by
    refine List.filter_eq_self.mpr (fun c hc => ?_)
    simp [hD c hc]
  have hVeq : (detectVehicleConflicts today instances).filter
      (fun c => c.check_date == today) = detectVehicleConflicts today instances := by
    refine List.filter_eq_self.mpr (fun c hc => ?_)
    simp [hV c hc]
  have hPP : (prior.filter (fun c => c.check_date != today)).filter
      (fun c => c.check_date != today) = prior.filter (fun c => c.check_date != today) :=
    List.filter_eq_self.mpr (fun c hc => (List.mem_filter.mp hc).2)
  have hPE : (prior.filter (fun c => c.check_date != today)).filter
      (fun c => c.check_date == today) = [] := by
    refine List.filter_eq_nil_iff.mpr (fun c hc => ?_)
    have h1 := (List.mem_filter.mp hc).2
    simp only [bne_iff_ne, ne_eq] at h1
    simp [h1]
  constructor
  · unfold detectScheduleConflicts
    rw [List.filter_append, List.filter_append, hPP, hDne, hVne]
    simp
  · unfold detectScheduleConflicts
    rw [List.filter_append, List.filter_append, hPE, hDeq, hVeq]
    simp

/-! ### C1: what conflict detection actually reads -/

def c1TemplateA : RouteSchedule :=
  { id := 1, route_id := 1, days_of_week := some [4], start_date := 0, end_date := some 0,
    standby_time := none, departure_time := none, default_driver_id := some 1,
    default_vehicle_id := none, owner_user_id := none, status := "Confirmed" }

def c1TemplateB : RouteSchedule :=
  { c1TemplateA with id := 2, route_id := 2 }

/-- C1 counterexample: two confirmed templates share driver 1 purely through
their template defaults (no `schedule_instances` row exists).  The
materialization path yields two same-day occurrences with that driver — a
double booking — yet `detect_schedule_conflicts`, which reads only persisted
`schedule_instances` rows, reports no conflict, so default-only occurrences do
not participate in conflict grouping as the claim states. -/
theorem c1_counterexample :
    ((scheduleOverview [c1TemplateA, c1TemplateB] []).filter
        (fun row => row.driver_id == some 1)).length = 2
    ∧ (scheduleOverview [c1TemplateA, c1TemplateB] []).map (fun row => row.schedule_date)
        = [0, 0]
    ∧ detectScheduleConflicts 0 [] [] = [] := by decide

lemma groupRecords_sources (getRes : ScheduleInstance → Option Nat)
    (mk : Nat → List ScheduleInstance → ConflictCheck) (today : Nat)
    (instances : List ScheduleInstance)
    (hmk : ∀ res m, (mk res m).conflicting_schedules = m.map (fun si => si.id)) :
    ∀ c ∈ groupRecords getRes mk today instances, ∀ i ∈ c.conflicting_schedules,
      ∃ si, si ∈ instances ∧ si.id = i ∧ si.schedule_date = today ∧ si.is_deleted = false
        ∧ (si.status = "Scheduled" ∨ si.status = "Confirmed") := by
  intro c hc i hi
  unfold groupRecords at hc
  obtain ⟨res, _, hfc⟩ := List.mem_filterMap.mp hc
  split at hfc
  · cases hfc
    rw [hmk] at hi
    obtain ⟨si, hmem, hid⟩ := List.mem_map.mp hi
    have h2 : si ∈ instances.filter (qualifying getRes today) := List.mem_of_mem_filter hmem
    have hq : qualifying getRes today si = true := (List.mem_filter.mp h2).2
    have hin : si ∈ instances := List.mem_of_mem_filter h2
    unfold qualifying at hq
    simp only [Bool.and_eq_true, Bool.or_eq_true, beq_iff_eq] at hq
    exact ⟨si, hin, hid, hq.1.1.1, hq.2, hq.1.2⟩
  · cases hfc

/-- C1 amended: `detect_schedule_conflicts` runs for the current date only and
builds its groups directly from persisted `schedule_instances` rows, not from
the materialized single-source path — every occurrence referenced by a conflict
record of the run is a persisted, non-deleted instance row of that date with
status Scheduled or Confirmed; occurrences existing only through template
defaults never appear. -/
theorem c1_amended :
    ∀ (today : Nat) (instances : List ScheduleInstance) (prior : List ConflictCheck)
      (c : ConflictCheck),
      c ∈ detectScheduleConflicts today instances prior → c.check_date = today →
      ∀ i ∈ c.conflicting_schedules,
        ∃ si, si ∈ instances ∧ si.id = i ∧ si.schedule_date = today
          ∧ si.is_deleted = false
          ∧ (si.status = "Scheduled" ∨ si.status = "Confirmed") := by
  intro today instances prior c hc hdate i hi
  unfold detectScheduleConflicts at hc
  rcases List.mem_append.mp hc with hc1 | hc2
  · rcases List.mem_append.mp hc1 with hp | hd
    · exfalso
      have h1 := (List.mem_filter.mp hp).2
      simp only [bne_iff_ne, ne_eq] at h1
      exact h1 hdate
    · exact groupRecords_sources _ _ today instances (fun _ _ => rfl) c hd i hi
  · exact groupRecords_sources _ _ today instances (fun _ _ => rfl) c hc2 i hi

def c1WitnessInst1 : ScheduleInstance :=
  { id := 1, route_schedule_id := 1, schedule_date := 0, driver_id := some 5,
    vehicle_id := none, standby_date := none, standby_time := none,
    departure_date := none, departure_time := none, status := "Scheduled",
    is_deleted := false }

def c1WitnessInst2 : ScheduleInstance :=
  { c1WitnessInst1 with id := 2, route_schedule_id := 2 }

/-- Concrete instantiation of `c1_amended`. -/
theorem c1_amended_witness :
    ∃ si, si ∈ [c1WitnessInst1, c1WitnessInst2] ∧ si.id = 1 ∧ si.schedule_date = 0
      ∧ si.is_deleted = false ∧ (si.status = "Scheduled" ∨ si.status = "Confirmed") :=
  c1_amended 0 [c1WitnessInst1, c1WitnessInst2] []
    { check_date := 0, driver_id := some 5, vehicle_id := none,
      conflicting_schedules := [1, 2], conflict_type := "Driver Overlap",
      severity := "Medium", status := "Open" }
    (by decide) (by decide) 1 (by decide)

/-! ### C4: the weekday numbering bug -/

def c4SundayTemplate : RouteSchedule :=
  { id := 1, route_id := 1, days_of_week := some [1, 2, 3, 4, 5, 6, 7], start_date := 3,
    end_date := some 3, standby_time := none, departure_time := none,
    default_driver_id := some 1, default_vehicle_id := none, owner_user_id := none,
    status := "Confirmed" }

/-- C4: a confirmed template whose rule lists every weekday 1..7 (so in the
numbering documented on `days_of_week`, 1=Monday..7=Sunday, it covers Sunday),
with day 3 — a Sunday — inside its date range, materializes nothing: the view
compares `EXTRACT(DOW)` (0=Sunday..6=Saturday, here 0) against the stored set,
so Sundays never match any stored value and the stored value 7 never matches
any date. -/
theorem c4_sunday_never_materialized :
    scheduleOverview [c4SundayTemplate] [] = []
    ∧ isoWeekday 3 = 7
    ∧ (effectiveDays c4SundayTemplate).contains 7 = true
    ∧ c4SundayTemplate.start_date ≤ 3
    ∧ 3 ≤ endBound c4SundayTemplate
    ∧ c4SundayTemplate.status = "Confirmed"
    ∧ pgDow 3 = 0 := by decide

/-! ### C5: field-by-field merge; deleted overrides fall back, not excluded -/

def c5Template : RouteSchedule :=
  { id := 2, route_id := 1, days_of_week := some [4], start_date := 0, end_date := some 0,
    standby_time := none, departure_time := none, default_driver_id := some 1,
    default_vehicle_id := none, owner_user_id := none, status := "Confirmed" }

def c5DeletedOverride : ScheduleInstance :=
  { id := 50, route_schedule_id := 2, schedule_date := 0, driver_id := some 9,
    vehicle_id := none, standby_date := none, standby_time := none,
    departure_date := none, departure_time := none, status := "Scheduled",
    is_deleted := true }

/-- C5 counterexample: an override row for (template 2, day 0) exists with
deletion flag true; the claim says the date is then excluded entirely, but the
view still yields the day 0 occurrence — the deleted row merely fails the
LEFT-JOIN condition, so the row falls back to the template defaults (driver 1,
no override). -/
theorem c5_counterexample :
    (scheduleOverview [c5Template] [c5DeletedOverride]).map
        (fun row => (row.schedule_date, row.driver_id, row.has_override))
      = [(0, some 1, false)]
    ∧ c5DeletedOverride.is_deleted = true
    ∧ c5DeletedOverride.route_schedule_id = c5Template.id
    ∧ c5DeletedOverride.schedule_date = 0 := by decide

lemma mem_dateRange (a b x : Nat) : x ∈ dateRange a b ↔ a ≤ x ∧ x ≤ b := by
  unfold dateRange
  simp only [List.mem_map, List.mem_range]
  constructor
  · rintro ⟨i, hi, rfl⟩
    omega
  · rintro ⟨h1, h2⟩
    exact ⟨x - a, by omega, by omega⟩

/-- C5 amended: effective occurrence fields merge field-by-field — the
override value when set, else the template default (so the effective driver is
the override driver when set, else the template's default driver) — but a
date whose only override row is flagged deleted is NOT excluded: such a date
has no joinable override, so it is still materialized (when in range, on a
rule weekday, for a confirmed template) carrying pure template defaults. -/
theorem c5_amended :
    ∀ (rs : RouteSchedule) (instances : List ScheduleInstance) (d : Nat),
      (∀ si : ScheduleInstance, findInstance instances rs.id d = some si →
        si.is_deleted = false
        ∧ (mkRow rs (findInstance instances rs.id d) d).driver_id
            = si.driver_id.or rs.default_driver_id
        ∧ (mkRow rs (findInstance instances rs.id d) d).vehicle_id
            = si.vehicle_id.or rs.default_vehicle_id
        ∧ (mkRow rs (findInstance instances rs.id d) d).standby_time
            = si.standby_time.or rs.standby_time
        ∧ (mkRow rs (findInstance instances rs.id d) d).departure_time
            = si.departure_time.or rs.departure_time
        ∧ (mkRow rs (findInstance instances rs.id d) d).status = si.status)
      ∧ (rs.status = "Confirmed" → rs.start_date ≤ d → d ≤ endBound rs →
          dowFilter rs d = true → findInstance instances rs.id d = none →
          mkRow rs none d ∈ scheduleOverview [rs] instances
          ∧ (mkRow rs none d).driver_id = rs.default_driver_id
          ∧ (mkRow rs none d).vehicle_id = rs.default_vehicle_id
          ∧ (mkRow rs none d).standby_time = rs.standby_time
          ∧ (mkRow rs none d).departure_time = rs.departure_time
          ∧ (mkRow rs none d).status = rs.status
          ∧ (mkRow rs none d).has_override = false) := by
  intro rs instances d
  constructor
  · intro si hfind
    have hdel : si.is_deleted = false := by
      have hp := List.find?_some hfind
      simp only [Bool.and_eq_true, beq_iff_eq] at hp
      exact hp.2
    rw [hfind]
    exact ⟨hdel, rfl, rfl, rfl, rfl, rfl⟩
  · intro hst h1 h2 hdow hfind
    refine ⟨?_, rfl, rfl, rfl, rfl, rfl, rfl⟩
    unfold scheduleOverview
    have hcond : (rs.status == "Confirmed" || rs.status == "Changed") = true := by
      simp [hst]
    simp only [List.flatMap_cons, List.flatMap_nil, List.append_nil, hcond, if_true]
    refine List.mem_filterMap.mpr ⟨d, ?_, ?_⟩
    · exact List.mem_filter.mpr ⟨(mem_dateRange _ _ _).mpr ⟨h1, h2⟩, hdow⟩
    · simp [hfind]

def c5WitnessOverride : ScheduleInstance :=
  { id := 60, route_schedule_id := 2, schedule_date := 0, driver_id := some 9,
    vehicle_id := none, standby_date := none, standby_time := some 100,
    departure_date := none, departure_time := none, status := "Confirmed",
    is_deleted := false }

/-- Concrete instantiation of `c5_amended`: both the merge branch (override
driver 9 wins over default driver 1) and the no-override branch. -/
theorem c5_amended_witness :
    (c5WitnessOverride.is_deleted = false
      ∧ (mkRow c5Template (findInstance [c5WitnessOverride] c5Template.id 0) 0).driver_id
          = c5WitnessOverride.driver_id.or c5Template.default_driver_id
      ∧ (mkRow c5Template (findInstance [c5WitnessOverride] c5Template.id 0) 0).vehicle_id
          = c5WitnessOverride.vehicle_id.or c5Template.default_vehicle_id
      ∧ (mkRow c5Template (findInstance [c5WitnessOverride] c5Template.id 0) 0).standby_time
          = c5WitnessOverride.standby_time.or c5Template.standby_time
      ∧ (mkRow c5Template (findInstance [c5WitnessOverride] c5Template.id 0) 0).departure_time
          = c5WitnessOverride.departure_time.or c5Template.departure_time
      ∧ (mkRow c5Template (findInstance [c5WitnessOverride] c5Template.id 0) 0).status
          = c5WitnessOverride.status)
    ∧ (mkRow c5Template none 0 ∈ scheduleOverview [c5Template] []
      ∧ (mkRow c5Template none 0).driver_id = c5Template.default_driver_id
      ∧ (mkRow c5Template none 0).vehicle_id = c5Template.default_vehicle_id
      ∧ (mkRow c5Template none 0).standby_time = c5Template.standby_time
      ∧ (mkRow c5Template none 0).departure_time = c5Template.departure_time
      ∧ (mkRow c5Template none 0).status = c5Template.status
      ∧ (mkRow c5Template none 0).has_override = false) :=
  ⟨(c5_amended c5Template [c5WitnessOverride] 0).1 c5WitnessOverride (by decide),
   (c5_amended c5Template [] 0).2 rfl (by decide) (by decide) (by decide) rfl⟩

/-! ### C6: cross-day alerts -/

lemma crossDayAlert_inv {today : Nat} {schedules : List RouteSchedule} {routes : List Route}
    {si : ScheduleInstance} {a : RouteAlert}
    (h : crossDayAlert today schedules routes si = some a) :
    a.schedule_instance_id = some si.id ∧ a.alert_type = "TimeCrossDay"
      ∧ a.created_date = today
      ∧ ∃ rs, schedules.find? (fun x => x.id == si.route_schedule_id) = some rs
          ∧ a.created_for_user = rs.owner_user_id := by
  unfold crossDayAlert at h
  rcases hsd : si.standby_date with _ | s
  · rw [hsd, Option.none_bind] at h
    cases h
  · rw [hsd, Option.some_bind] at h
    rcases hdd : si.departure_date with _ | dd
    · rw [hdd, Option.none_bind] at h
      cases h
    · rw [hdd, Option.some_bind] at h
      split at h
      · rcases Option.bind_eq_some.mp h with ⟨rs, hrs, hmap⟩
        rcases Option.map_eq_some'.mp hmap with ⟨r, _, ha⟩
        subst ha
        exact ⟨rfl, rfl, rfl, rs, hrs, rfl⟩
      · cases h

lemma crossDayAlert_eq_some {today : Nat} {schedules : List RouteSchedule}
    {routes : List Route} {si : ScheduleInstance} {rs : RouteSchedule} {r : Route}
    {s dd : Nat}
    (h1 : si.standby_date = some s) (h2 : si.departure_date = some dd)
    (h3 : si.schedule_date = today) (h4 : s ≠ dd) (h5 : si.is_deleted = false)
    (h6 : schedules.find? (fun x => x.id == si.route_schedule_id) = some rs)
    (h7 : routes.find? (fun x => x.id == rs.route_id) = some r) :
    crossDayAlert today schedules routes si
      = some { schedule_instance_id := some si.id, route_schedule_id := none,
               alert_type := "TimeCrossDay", title := "Cross-Day Schedule Detected",
               message := some ("Route " ++ r.route_code ++ " has standby time on "
                 ++ toString s ++ " but departure on " ++ toString dd),
               severity := "Medium", created_for_user := rs.owner_user_id,
               created_date := today } := by
  unfold crossDayAlert
  have hcond : (si.schedule_date == today && s != dd && si.is_deleted == false) = true := by
    simp [h3, h4, h5]
  rw [h1, Option.some_bind, h2, Option.some_bind, if_pos hcond, h6, Option.some_bind, h7]
  rfl

lemma crossDayAlert_none_of_eq {today : Nat} {schedules : List RouteSchedule}
    {routes : List Route} {si : ScheduleInstance} {s : Nat}
    (h1 : si.standby_date = some s) (h2 : si.departure_date = some s) :
    crossDayAlert today schedules routes si = none := by
  unfold crossDayAlert
  rw [h1, Option.some_bind, h2, Option.some_bind, if_neg]
  simp

/-- The alert predicate used by C6: an alert raised by today's cross-day pass
for the instance with id `tid`. -/
def crossDayPred (tid today : Nat) (a : RouteAlert) : Bool :=
  a.schedule_instance_id == some tid && a.alert_type == "TimeCrossDay"
    && a.created_date == today

lemma countP_crossDay_zero (today : Nat) (schedules : List RouteSchedule)
    (routes : List Route) (tid : Nat) :
    ∀ l : List ScheduleInstance,
      (∀ x ∈ l, x.id ≠ tid ∨ crossDayAlert today schedules routes x = none) →
      (l.filterMap (crossDayAlert today schedules routes)).countP
        (crossDayPred tid today) = 0 := by
  intro l
  induction l with
  | nil => intro _; simp
  | cons x t ih =>
    intro h
    rw [List.filterMap_cons]
    rcases h x (List.mem_cons_self x t) with hx | hx
    · cases hfa : crossDayAlert today schedules routes x with
      | none => exact ih (fun y hy => h y (List.mem_cons_of_mem _ hy))
      | some a =>
        rw [List.countP_cons]
        have ha := (crossDayAlert_inv hfa).1
        have hpf : crossDayPred tid today a = false := by
          unfold crossDayPred
          simp [ha, hx]
        rw [hpf]
        simp only [Bool.false_eq_true, if_false, Nat.add_zero]
        exact ih (fun y hy => h y (List.mem_cons_of_mem _ hy))
    · rw [hx]
      exact ih (fun y hy => h y (List.mem_cons_of_mem _ hy))

lemma countP_crossDay_one (today : Nat) (schedules : List RouteSchedule)
    (routes : List Route) (si : ScheduleInstance) (a : RouteAlert)
    (hsome : crossDayAlert today schedules routes si = some a)
    (hp : crossDayPred si.id today a = true) :
    ∀ l : List ScheduleInstance, (l.map (fun x => x.id)).Nodup → si ∈ l →
      (l.filterMap (crossDayAlert today schedules routes)).countP
        (crossDayPred si.id today) = 1 := by
  intro l
  induction l with
  | nil => intro _ h; cases h
  | cons x t ih =>
    intro hnd hmem
    have hx : x.id ∉ t.map (fun y => y.id) := (List.nodup_cons.mp hnd).1
    have hnd' : (t.map (fun y => y.id)).Nodup := (List.nodup_cons.mp hnd).2
    rw [List.filterMap_cons]
    rcases List.mem_cons.mp hmem with rfl | hmemt
    · rw [hsome, List.countP_cons, hp]
      simp only [if_true]
      have hz : (t.filterMap (crossDayAlert today schedules routes)).countP
          (crossDayPred si.id today) = 0 := by
        refine countP_crossDay_zero today schedules routes si.id t (fun y hy => Or.inl ?_)
        intro hid
        exact hx (hid ▸ List.mem_map.mpr ⟨y, hy, rfl⟩)
      omega
    · have hxid : x.id ≠ si.id := by
        intro hid
        exact hx (hid ▸ List.mem_map.mpr ⟨si, hmemt, rfl⟩)
      cases hfx : crossDayAlert today schedules routes x with
      | none => exact ih hnd' hmemt
      | some b =>
        rw [List.countP_cons]
        have hb := (crossDayAlert_inv hfx).1
        have hpf : crossDayPred si.id today b = false := by
          unfold crossDayPred
          simp [hb, hxid]
        rw [hpf]
        simp only [Bool.false_eq_true, if_false, Nat.add_zero]
        exact ih hnd' hmemt

/-- C6: for a non-deleted occurrence of the run date whose standby date
differs from its departure date, the cross-day pass leaves exactly one
TimeCrossDay alert for it, addressed to the owning user of its template; an
occurrence with equal standby and departure dates gets none; and the pass
writes no conflict records at all. -/
theorem c6_cross_day :
    ∀ (today : Nat) (schedules : List RouteSchedule) (routes : List Route)
      (instances : List ScheduleInstance) (alerts : List RouteAlert)
      (conflicts : List ConflictCheck) (si : ScheduleInstance) (rs : RouteSchedule)
      (r : Route) (s dd : Nat),
      (instances.map (fun x => x.id)).Nodup →
      si ∈ instances → si.schedule_date = today → si.standby_date = some s →
      si.departure_date = some dd → si.is_deleted = false →
      schedules.find? (fun x => x.id == si.route_schedule_id) = some rs →
      routes.find? (fun x => x.id == rs.route_id) = some r →
      ((s ≠ dd →
          (detectCrossDayConflict today schedules routes instances alerts conflicts).1.countP
              (crossDayPred si.id today) = 1
          ∧ ∀ a ∈ (detectCrossDayConflict today schedules routes instances alerts conflicts).1,
              crossDayPred si.id today a = true → a.created_for_user = rs.owner_user_id)
        ∧ (s = dd →
            (detectCrossDayConflict today schedules routes instances alerts conflicts).1.countP
              (crossDayPred si.id today) = 0)
        ∧ (detectCrossDayConflict today schedules routes instances alerts conflicts).2
            = conflicts) := by
  intro today schedules routes instances alerts conflicts si rs r s dd
  intro hnd hmem hdate hsd hdd hdel hfrs hfr
  have hkept : (alerts.filter
      (fun a => !(a.alert_type == "TimeCrossDay" && a.created_date == today))).countP
      (crossDayPred si.id today) = 0 := by
    refine List.countP_eq_zero.mpr (fun a ha => ?_)
    have h1 := (List.mem_filter.mp ha).2
    intro hp
    unfold crossDayPred at hp
    simp only [Bool.and_eq_true, beq_iff_eq] at hp
    simp [hp.1.2, hp.2] at h1
  refine ⟨?_, ?_, rfl⟩
  · intro hne
    have halert := crossDayAlert_eq_some hsd hdd hdate hne hdel hfrs hfr
    have hp : crossDayPred si.id today
        { schedule_instance_id := some si.id, route_schedule_id := none,
          alert_type := "TimeCrossDay", title := "Cross-Day Schedule Detected",
          message := some ("Route " ++ r.route_code ++ " has standby time on "
            ++ toString s ++ " but departure on " ++ toString dd),
          severity := "Medium", created_for_user := rs.owner_user_id,
          created_date := today } = true := by
      unfold crossDayPred
      simp
    constructor
    · show (List.filter _ alerts ++ List.filterMap _ instances).countP _ = 1
      rw [List.countP_append, hkept,
        countP_crossDay_one today schedules routes si _ halert hp instances hnd hmem]
    · intro a ha hpa
      rcases List.mem_append.mp ha with hin | hin
      · exfalso
        have h1 := (List.mem_filter.mp hin).2
        unfold crossDayPred at hpa
        simp only [Bool.and_eq_true, beq_iff_eq] at hpa
        simp [hpa.1.2, hpa.2] at h1
      · obtain ⟨x, hxmem, hxa⟩ := List.mem_filterMap.mp hin
        obtain ⟨hid, _, _, rs', hrs', howner⟩ := crossDayAlert_inv hxa
        have hxid : x.id = si.id := by
          unfold crossDayPred at hpa
          simp only [Bool.and_eq_true, beq_iff_eq] at hpa
          have := hpa.1.1
          rw [hid] at this
          exact Option.some_injective _ this
        have hxsi : x = si :=
          List.inj_on_of_nodup_map hnd hxmem hmem hxid
        subst hxsi
        rw [hfrs] at hrs'
        cases hrs'
        exact howner
  · intro heq
    subst heq
    show (List.filter _ alerts ++ List.filterMap _ instances).countP _ = 0
    rw [List.countP_append, hkept]
    rw [countP_crossDay_zero today schedules routes si.id instances (fun y hy => ?_)]
    by_cases hyid : y.id = si.id
    · right
      have hysi : y = si := List.inj_on_of_nodup_map hnd hy hmem hyid
      subst hysi
      exact crossDayAlert_none_of_eq hsd hdd
    · exact Or.inl hyid

def c6WitnessInst : ScheduleInstance :=
  { id := 7, route_schedule_id := 3, schedule_date := 0, driver_id := none,
    vehicle_id := none, standby_date := some 0, standby_time := some 1380,
    departure_date := some 1, departure_time := some 30, status := "Scheduled",
    is_deleted := false }

def c6WitnessTemplate : RouteSchedule :=
  { id := 3, route_id := 4, days_of_week := none, start_date := 0, end_date := none,
    standby_time := none, departure_time := none, default_driver_id := none,
    default_vehicle_id := none, owner_user_id := some 42, status := "Confirmed" }

def c6WitnessRoute : Route := { id := 4, route_code := "RTE000004" }

/-- Concrete instantiation of `c6_cross_day`: standby day 0, departure day 1. -/
theorem c6_cross_day_witness :
    (detectCrossDayConflict 0 [c6WitnessTemplate] [c6WitnessRoute] [c6WitnessInst] []
        ([] : List ConflictCheck)).1.countP (crossDayPred 7 0) = 1
    ∧ (detectCrossDayConflict 0 [c6WitnessTemplate] [c6WitnessRoute] [c6WitnessInst] []
        ([] : List ConflictCheck)).2 = ([] : List ConflictCheck) :=
  ⟨((c6_cross_day 0 [c6WitnessTemplate] [c6WitnessRoute] [c6WitnessInst] [] []
      c6WitnessInst c6WitnessTemplate c6WitnessRoute 0 1
      (by decide) (by decide) rfl rfl rfl rfl (by decide) (by decide)).1
        (by decide)).1,
   (c6_cross_day 0 [c6WitnessTemplate] [c6WitnessRoute] [c6WitnessInst] [] []
      c6WitnessInst c6WitnessTemplate c6WitnessRoute 0 1
      (by decide) (by decide) rfl rfl rfl rfl (by decide) (by decide)).2.2⟩

/-! ### C7: the worked suggestion example -/

def c7OccFrom : RouteOcc :=
  { route_code := "RTE000001", arrival_minutes := 840, departure_minutes := 780 }

def c7OccTo : RouteOcc :=
  { route_code := "RTE000002", arrival_minutes := 945, departure_minutes := 885 }

/-- C7: with the seeded default configuration, an occurrence ending 14:00
(minute 840) and one starting 14:45 (minute 885) on routes 10 km apart yield
exactly one suggestion, with gap 45 minutes and efficiency
0.4 * (1 - 10/50) + 0.6 * (1 - 45/240) = 0.8075, above the 0.7 threshold. -/
theorem c7_consolidation :
    suggestConsolidations defaultSuggestionConfig [c7OccFrom, c7OccTo] (fun _ _ => 10)
      = [{ from_route := "RTE000001", to_route := "RTE000002", gap_minutes := 45,
           distance_km := 10, efficiency_score := 323/400 }]
    ∧ defaultSuggestionConfig.efficiency_threshold ≤ 323/400
    ∧ (323 : ℚ)/400
        = defaultSuggestionConfig.distance_weight * (1 - 10/50)
          + defaultSuggestionConfig.time_weight * (1 - 45/240) := by
  refine ⟨?_, by norm_num [defaultSuggestionConfig], by norm_num [defaultSuggestionConfig]⟩
  simp only [suggestConsolidations, c7OccFrom, c7OccTo, defaultSuggestionConfig,
    efficiencyScore, List.flatMap_cons, List.flatMap_nil, List.filterMap_cons,
    List.filterMap_nil, List.append_nil]
  norm_num
  rw [if_neg (by decide : ¬ ("RTE000001" : String) = "RTE000002")]

/-! ### C8: audit failures and the primary mutation -/

/-- C8 counterexample: inserting row 7 into an empty tracked table — the
primary statement alone would leave the row present, but when the audit
insert fails the whole transaction aborts, so the row is not committed (and no
audit record exists either). -/
theorem c8_counterexample :
    7 ∈ applyMutation ([] : List Nat) (Mutation.ins 7)
    ∧ 7 ∉ (mutateWithAudit "drivers" ActorRead.failed false
        { rows := [], audit_logs := [] } (Mutation.ins 7)).rows
    ∧ (mutateWithAudit "drivers" ActorRead.failed false
        { rows := [], audit_logs := [] } (Mutation.ins 7)).audit_logs = [] := by
  decide

/-- C8 amended: the audit record is written by an `AFTER ROW` trigger in the
same transaction, with no exception handler around the insert — when the audit
insert fails, the primary mutation rolls back with it; when it succeeds, the
mutation commits together with exactly one audit record.  Only the
actor-identity lookup is best-effort: its failure is caught and the mutation
proceeds with a NULL actor recorded. -/
theorem c8_amended :
    ∀ (tbl : String) (actor : ActorRead) (s : TrackedTable) (m : Mutation),
      mutateWithAudit tbl actor false s m = s
      ∧ (mutateWithAudit tbl actor true s m).rows = applyMutation s.rows m
      ∧ (mutateWithAudit tbl actor true s m).audit_logs
          = s.audit_logs ++ [auditRecord tbl actor m]
      ∧ (mutateWithAudit tbl ActorRead.failed true s m).audit_logs
          = s.audit_logs ++ [auditRecord tbl (ActorRead.failed) m]
      ∧ resolveActor ActorRead.failed = none := by
  intro tbl actor s m
  exact ⟨rfl, rfl, rfl, rfl, rfl⟩

/-! ### C9: support offers, 24h expiry and the sweep -/

/-- C9: a created support offer carries exactly the supplied proposed driver,
proposed vehicle and message, status Pending, and expires exactly 24 hours
(24 * 60 minutes) after its creation instant; the expiry sweep keeps every
offer (a status transition, never a delete), marks a pending, unanswered,
expired offer Expired, and a second sweep changes nothing more (exactly
once). -/
theorem c9_support_offer :
    ∀ (now newId : Nat) (offers : List SupportOffer) (alerts : List RouteAlert)
      (prid : Option Nat) (pfrom : Nat) (pto pdrv pveh : Option Nat)
      (pmsg : Option String) (ptype : String) (t : Nat),
      (∀ o ∈ offers, o.id ≠ newId) →
      ((createSupportOffer now newId offers alerts prid pfrom pto pdrv pveh pmsg
          ptype).1.find? (fun o => o.id == newId)
        = some { id := newId, route_schedule_id := prid, from_user_id := pfrom,
                 to_user_id := pto, proposed_driver_id := pdrv,
                 proposed_vehicle_id := pveh, offer_type := ptype, message := pmsg,
                 status := "Pending", expires_at := now + 24 * 60, responded_at := none })
      ∧ expireSweep t (expireSweep t offers) = expireSweep t offers
      ∧ (expireSweep t offers).length = offers.length
      ∧ (∀ o ∈ offers, o.status = "Pending" → o.responded_at = none →
          o.expires_at ≤ t → { o with status := "Expired" } ∈ expireSweep t offers) := by
  intro now newId offers alerts prid pfrom pto pdrv pveh pmsg ptype t hfresh
  refine ⟨?_, ?_, ?_, ?_⟩
  · show ((offers ++ [_]).find? _) = _
    have hnone : ∀ o ∈ offers, ((fun o => o.id == newId) o) = false := by
      intro o ho
      simp [hfresh o ho]
    induction offers with
    | nil => simp [List.find?]
    | cons a t2 ih =>
      rw [List.cons_append, List.find?_cons_of_neg _ (by simp [hnone a (List.mem_cons_self a t2)])]
      exact ih (fun o ho => hfresh o (List.mem_cons_of_mem _ ho))
        (fun o ho => hnone o (List.mem_cons_of_mem _ ho))
  · unfold expireSweep
    rw [List.map_map]
    refine List.map_congr_left (fun o _ => ?_)
    by_cases hc : o.status = "Pending" ∧ o.expires_at ≤ t ∧ o.responded_at = none
    · simp only [Function.comp_apply, if_pos hc]
      rw [if_neg]
      intro hcontra
      exact absurd hcontra.1 (by decide)
    · simp only [Function.comp_apply, if_neg hc, if_neg hc]
  · exact List.length_map offers _
  · intro o ho h1 h2 h3
    unfold expireSweep
    refine List.mem_map.mpr ⟨o, ho, ?_⟩
    rw [if_pos ⟨h1, h3, h2⟩]

def c9StaleOffer : SupportOffer :=
  { id := 5, route_schedule_id := some 3, from_user_id := 11, to_user_id := some 12,
    proposed_driver_id := some 8, proposed_vehicle_id := none,
    offer_type := "Resource", message := some "need cover", status := "Pending",
    expires_at := 1440, responded_at := none }

/-- Concrete instantiation of `c9_support_offer`: creation round-trip at
time 0 and the sweep at time 2000 expiring a stale pending offer. -/
theorem c9_support_offer_witness :
    ((createSupportOffer 0 1 [c9StaleOffer] [] (some 3) 11 (some 12) (some 8) none
        (some "need cover") "Resource").1.find? (fun o => o.id == 1)
      = some { id := 1, route_schedule_id := some 3, from_user_id := 11,
               to_user_id := some 12, proposed_driver_id := some 8,
               proposed_vehicle_id := none, offer_type := "Resource",
               message := some "need cover", status := "Pending",
               expires_at := 0 + 24 * 60, responded_at := none })
    ∧ { c9StaleOffer with status := "Expired" } ∈ expireSweep 2000 [c9StaleOffer] :=
  ⟨(c9_support_offer 0 1 [c9StaleOffer] [] (some 3) 11 (some 12) (some 8) none
      (some "need cover") "Resource" 2000 (by decide)).1,
   (c9_support_offer 0 1 [c9StaleOffer] [] (some 3) 11 (some 12) (some 8) none
      (some "need cover") "Resource" 2000 (by decide)).2.2.2 c9StaleOffer
      (by decide) rfl rfl (by decide)⟩

/-! ### C10: responsibility assignment is a keyed upsert -/

/-- C10: `assign_route_responsibility` is an upsert on the unique key
(route, user, role): it preserves "at most one row per key" for every key,
and when a grant for the key already exists it adds no row, returns the
existing row's id, and reactivates that row (is_active true, refreshed
assigned_at/assigned_by). -/
theorem c10_upsert :
    ∀ (now newId : Nat) (tbl : List RouteResponsibility) (r u : Nat) (l : String)
      (b : Option Nat),
      (∀ (ru uu : Nat) (lu : String),
        tbl.countP (keyMatch ru uu lu) ≤ 1 →
        (assignRouteResponsibility now newId tbl r u l b).1.countP (keyMatch ru uu lu) ≤ 1)
      ∧ (∀ rr, tbl.find? (keyMatch r u l) = some rr →
          (assignRouteResponsibility now newId tbl r u l b).1.length = tbl.length
          ∧ (assignRouteResponsibility now newId tbl r u l b).2 = rr.id
          ∧ { rr with is_active := true, assigned_at := now, assigned_by := b }
              ∈ (assignRouteResponsibility now newId tbl r u l b).1) := by
  intro now newId tbl r u l b
  rcases hfind : tbl.find? (keyMatch r u l) with _ | rr
  · constructor
    · intro ru uu lu hle
      simp only [assignRouteResponsibility, hfind]
      rw [List.countP_append]
      by_cases hk : keyMatch ru uu lu
          { id := newId, route_id := r, user_id := u, role := l,
            assigned_at := now, assigned_by := b, is_active := true } = true
      · have h1 : ru = r := by
          unfold keyMatch at hk
          simp only [Bool.and_eq_true, beq_iff_eq] at hk
          exact hk.1.1.symm
        have h2 : uu = u := by
          unfold keyMatch at hk
          simp only [Bool.and_eq_true, beq_iff_eq] at hk
          exact hk.1.2.symm
        have h3 : lu = l := by
          unfold keyMatch at hk
          simp only [Bool.and_eq_true, beq_iff_eq] at hk
          exact hk.2.symm
        subst h1
        subst h2
        subst h3
        have hzero : tbl.countP (keyMatch ru uu lu) = 0 := by
          refine List.countP_eq_zero.mpr (fun x hx => ?_)
          have hn := List.find?_eq_none.mp hfind x hx
          simpa using hn
        rw [hzero]
        simp [List.countP_cons, hk]
      · simp [hk]
        omega
    · intro rr hrr
      cases hrr
  · constructor
    · intro ru uu lu hle
      simp only [assignRouteResponsibility, hfind]
      rw [List.countP_map]
      have : ∀ x ∈ tbl,
          ((keyMatch ru uu lu) ∘ (fun x =>
            if keyMatch r u l x then
              { x with is_active := true, assigned_at := now, assigned_by := b }
            else x)) x = keyMatch ru uu lu x := by
        intro x _
        by_cases hx : keyMatch r u l x = true
        · simp only [Function.comp_apply, if_pos hx]
          unfold keyMatch
          rfl
        · simp only [Function.comp_apply, if_neg hx]
      rw [List.countP_congr (fun x hx => by rw [this x hx])]
      exact hle
    · intro rr0 hrr0
      cases hrr0
      have hmem : rr ∈ tbl := List.mem_of_find?_eq_some hfind
      have hkeyrr : keyMatch r u l rr = true := List.find?_some hfind
      simp only [assignRouteResponsibility, hfind]
      refine ⟨by simp, trivial, ?_⟩
      refine List.mem_map.mpr ⟨rr, hmem, ?_⟩
      rw [if_pos hkeyrr]

def c10Existing : RouteResponsibility :=
  { id := 1, route_id := 10, user_id := 20, role := "Primary", assigned_at := 0,
    assigned_by := none, is_active := false }

/-- Concrete instantiation of `c10_upsert`: re-granting an existing
(route 10, user 20, Primary) responsibility reuses and reactivates the row. -/
theorem c10_upsert_witness :
    (assignRouteResponsibility 5 99 [c10Existing] 10 20 "Primary" (some 3)).1.length
        = [c10Existing].length
    ∧ (assignRouteResponsibility 5 99 [c10Existing] 10 20 "Primary" (some 3)).2
        = c10Existing.id
    ∧ { c10Existing with is_active := true, assigned_at := 5, assigned_by := some 3 }
        ∈ (assignRouteResponsibility 5 99 [c10Existing] 10 20 "Primary" (some 3)).1 :=
  (c10_upsert 5 99 [c10Existing] 10 20 "Primary" (some 3)).2 c10Existing (by decide)

end TransportPlanner
